import Mathlib

/-!
Verification of the profile synthesis engine in `dell_g15_color_control.py`,
centred on `DisplayController.apply_profile_wayland`.

The Python floating-point arithmetic is embedded as exact rational
arithmetic (`ℚ`), except for the real-exponent gamma curve, which uses
real `rpow`.  `Python`'s `int(v)` truncation is modelled as `Int.floor`,
faithful because every truncated value in the source is nonnegative.
-/

/- ## ColorTransform: XYZ ↔ xyY helpers (source lines 266-275) -/

/-- Source function `xyz_to_xyy(X, Y, Z)`: returns `(x, y, Y)`; when the
component sum is zero it returns the hard-coded D65 fallback
`(0.3127, 0.3290, Y)`. -/
def xyz_to_xyy (X Y Z : ℚ) : ℚ × ℚ × ℚ :=
  if X + Y + Z = 0 then (3127/10000, 3290/10000, Y)
  else (X / (X + Y + Z), Y / (X + Y + Z), Y)

/-- Source function `xyy_to_xyz(x, y, Y)`: returns `(0, 0, 0)` when `y = 0`,
otherwise `((Y/y)·x, Y, (Y/y)·(1-x-y))`. -/
def xyy_to_xyz (x y Y : ℚ) : ℚ × ℚ × ℚ :=
  if y = 0 then (0, 0, 0)
  else (Y / y * x, Y, Y / y * (1 - x - y))

/- ## Fixed white point (source line 285): wtpt_xyz = {X: 0.9642, Y: 1.0, Z: 0.8249} -/

/-- X component of the hard-coded D50 PCS white point. -/
def wtpt_X : ℚ := 9642/10000

/-- Y component of the hard-coded D50 PCS white point. -/
def wtpt_Y : ℚ := 1

/-- Z component of the hard-coded D50 PCS white point. -/
def wtpt_Z : ℚ := 8249/10000

/-- Value `white_x` as computed on source line 287. -/
def white_x : ℚ := (xyz_to_xyy wtpt_X wtpt_Y wtpt_Z).1

/-- Value `white_y` as computed on source line 287. -/
def white_y : ℚ := (xyz_to_xyy wtpt_X wtpt_Y wtpt_Z).2.1

/- ## Saturation factor (source lines 224-225) -/

/-- Source line 224: `target_sat = max(0.01, float(saturation))`. -/
def targetSat (saturation : ℚ) : ℚ := max (1/100) saturation

/-- Source line 225: `sat_factor = 1.0 / target_sat`. -/
def satFactor (saturation : ℚ) : ℚ := 1 / targetSat saturation

/-- One chromaticity coordinate update, `new = white + (old - white) * factor`
(source lines 297-298). -/
def scaleCoord (w c f : ℚ) : ℚ := w + (c - w) * f

/-- A tristimulus value as held in an `XYZNumber` node. -/
structure XYZNumber where
  X : ℚ
  Y : ℚ
  Z : ℚ
deriving DecidableEq

/-- The scaled chromaticity x of a primary (source lines 295, 297). -/
def scaledChromaX (p : XYZNumber) (saturation : ℚ) : ℚ :=
  scaleCoord white_x (xyz_to_xyy p.X p.Y p.Z).1 (satFactor saturation)

/-- The scaled chromaticity y of a primary (source lines 295, 298). -/
def scaledChromaY (p : XYZNumber) (saturation : ℚ) : ℚ :=
  scaleCoord white_y (xyz_to_xyy p.X p.Y p.Z).2.1 (satFactor saturation)

/-- The per-primary saturation transform of source lines 294-300: convert the
primary to xyY, move its chromaticity relative to the fixed white point by
`sat_factor`, and convert back with the original luminance. -/
def scaleSaturation (p : XYZNumber) (saturation : ℚ) : XYZNumber :=
  let t := xyy_to_xyz (scaledChromaX p saturation) (scaledChromaY p saturation)
    (xyz_to_xyy p.X p.Y p.Z).2.2
  ⟨t.1, t.2.1, t.2.2⟩

/- ## Theorems about the color math -/

/-- C2 counterexample: on the zero tristimulus value, `xyz_to_xyy` returns the
D65 fallback chromaticity `(0.3127, 0.3290)`, which is NOT the chromaticity of
the D50 white point that the saturation scaling uses. -/
theorem xyz_to_xyy_fallback_counterexample :
    xyz_to_xyy 0 0 0 = (3127/10000, 3290/10000, 0) ∧
    (xyz_to_xyy 0 0 0).1 ≠ white_x ∧
    (xyz_to_xyy 0 0 0).2.1 ≠ white_y := by
  refine ⟨?_, ?_, ?_⟩ <;>
    norm_num [xyz_to_xyy, white_x, white_y, wtpt_X, wtpt_Y, wtpt_Z]

/-- C2 (amended): whenever the tristimulus component sum is zero,
`xyz_to_xyy` returns the fixed D65 fallback chromaticity
`(0.3127, 0.3290)` with the `Y` component passed through, instead of
failing on a division by zero. -/
theorem xyz_to_xyy_zero_sum (X Y Z : ℚ) (h : X + Y + Z = 0) :
    xyz_to_xyy X Y Z = (3127/10000, 3290/10000, Y) := by
  simp [xyz_to_xyy, h]

/-- Witness for `xyz_to_xyy_zero_sum` at the zero tristimulus value. -/
theorem xyz_to_xyy_zero_sum_witness :
    (0:ℚ) + 0 + 0 = 0 ∧ xyz_to_xyy 0 0 0 = (3127/10000, 3290/10000, 0) :=
  ⟨by norm_num, xyz_to_xyy_zero_sum 0 0 0 (by norm_num)⟩

/-- C6: for any tristimulus value with `Y ∈ (0,1]` and positive component sum,
converting to chromaticity and back reconstructs the value exactly (hence in
particular within 1e-6 in each component). -/
theorem xyy_roundtrip (X Y Z : ℚ) (hY0 : 0 < Y) (hY1 : Y ≤ 1)
    (hs : 0 < X + Y + Z) :
    xyy_to_xyz (xyz_to_xyy X Y Z).1 (xyz_to_xyy X Y Z).2.1
      (xyz_to_xyy X Y Z).2.2 = (X, Y, Z) := by
  have hs' : X + Y + Z ≠ 0 := ne_of_gt hs
  have hy : Y / (X + Y + Z) ≠ 0 := div_ne_zero (ne_of_gt hY0) hs'
  simp only [xyz_to_xyy, if_neg hs']
  simp only [xyy_to_xyz, if_neg hy]
  rw [Prod.mk.injEq, Prod.mk.injEq]
  refine ⟨?_, rfl, ?_⟩
  · field_simp
  · field_simp
    ring

/-- Witness for `xyy_roundtrip` at the tristimulus value (0.5, 0.3, 0.2). -/
theorem xyy_roundtrip_witness :
    (0:ℚ) < 3/10 ∧ (3/10:ℚ) ≤ 1 ∧ (0:ℚ) < 1/2 + 3/10 + 1/5 ∧
    xyy_to_xyz (xyz_to_xyy (1/2) (3/10) (1/5)).1
      (xyz_to_xyy (1/2) (3/10) (1/5)).2.1
      (xyz_to_xyy (1/2) (3/10) (1/5)).2.2 = (1/2, 3/10, 1/5) :=
  ⟨by norm_num, by norm_num, by norm_num,
    xyy_roundtrip (1/2) (3/10) (1/5) (by norm_num) (by norm_num) (by norm_num)⟩

/-- C7: with `saturationInput = 1.0` the saturation factor is exactly 1 and
the chromaticity update is the identity, for every white/chromaticity pair;
in particular both scaled chromaticity coordinates of any primary are
unchanged. -/
theorem scaleSaturation_identity :
    satFactor 1 = 1 ∧
    (∀ w c : ℚ, scaleCoord w c (satFactor 1) = c) ∧
    (∀ p : XYZNumber,
      scaledChromaX p 1 = (xyz_to_xyy p.X p.Y p.Z).1 ∧
      scaledChromaY p 1 = (xyz_to_xyy p.X p.Y p.Z).2.1) := by
  have h : satFactor 1 = 1 := by
    rw [satFactor, targetSat, max_eq_right (by norm_num : (1/100 : ℚ) ≤ 1)]
    norm_num
  have hc : ∀ w c : ℚ, scaleCoord w c (satFactor 1) = c := by
    intro w c
    rw [h, scaleCoord]
    ring
  exact ⟨h, hc, fun p => ⟨hc _ _, hc _ _⟩⟩

/-- C4 counterexample: at `saturationInput = 0` the factor is 100 and the
chromaticity of a sample primary (x = 0.5) is pushed a hundredfold AWAY from
the white point, overshooting far beyond its original position — not a
desaturation toward white. -/
theorem satFactor_zero_boost_counterexample :
    satFactor 0 = 100 ∧ white_x < 1/2 ∧
    1/2 < scaleCoord white_x (1/2) (satFactor 0) := by
  have h : satFactor 0 = 100 := by
    rw [satFactor, targetSat, max_eq_left (by norm_num : (0:ℚ) ≤ 1/100)]
    norm_num
  refine ⟨h, ?_, ?_⟩ <;>
    norm_num [h, scaleCoord, white_x, xyz_to_xyy, wtpt_X, wtpt_Y, wtpt_Z]

/-- C4 (amended): every `saturationInput` strictly below 0.01 is clamped to
0.01, the factor is `1/max(0.01, saturationInput) = 100` (so no division by
zero occurs), and the resulting transform multiplies every chromaticity
offset from the white point by 100 — a maximal saturation boost away from
white, not a desaturation toward it. -/
theorem satFactor_floor_boost (saturation : ℚ) (h : saturation < 1/100) :
    targetSat saturation = 1/100 ∧ satFactor saturation = 100 ∧
    (∀ w c : ℚ, scaleCoord w c (satFactor saturation) - w = 100 * (c - w)) := by
  have ht : targetSat saturation = 1/100 := max_eq_left (le_of_lt h)
  have hf : satFactor saturation = 100 := by
    rw [satFactor, ht]
    norm_num
  refine ⟨ht, hf, fun w c => ?_⟩
  rw [hf, scaleCoord]
  ring

/-- Witness for `satFactor_floor_boost` at `saturationInput = 0`. -/
theorem satFactor_floor_boost_witness :
    (0:ℚ) < 1/100 ∧ targetSat 0 = 1/100 ∧ satFactor 0 = 100 :=
  ⟨by norm_num, (satFactor_floor_boost 0 (by norm_num)).1,
    (satFactor_floor_boost 0 (by norm_num)).2.1⟩

/-- C8 counterexample: a primary whose chromaticity y lands exactly on zero
after scaling (possible at the clamped factor 100) is mapped to the zero
tristimulus value, so its luminance `Y` changes from 9900/27891 to 0. -/
theorem scaleSaturation_Y_counterexample :
    (scaleSaturation ⟨9000/27891, 9900/27891, 8991/27891⟩ (1/100)).Y = 0 ∧
    (9900/27891 : ℚ) ≠ 0 := by
  constructor
  · norm_num [scaleSaturation, scaledChromaX, scaledChromaY, xyz_to_xyy,
      xyy_to_xyz, scaleCoord, satFactor, targetSat, white_x, white_y,
      wtpt_X, wtpt_Y, wtpt_Z]
  · norm_num

/-- C8 (amended): whenever the scaled chromaticity y coordinate is nonzero,
`scaleSaturation` preserves the luminance component `Y` of the primary
exactly; when it is zero, the zero tristimulus value is returned instead. -/
theorem scaleSaturation_preserves_Y (p : XYZNumber) (saturation : ℚ)
    (h : scaledChromaY p saturation ≠ 0) :
    (scaleSaturation p saturation).Y = p.Y := by
  have h3 : (xyz_to_xyy p.X p.Y p.Z).2.2 = p.Y := by
    rw [xyz_to_xyy]
    split <;> rfl
  simp only [scaleSaturation, xyy_to_xyz, if_neg h, h3]

/-- Witness for `scaleSaturation_preserves_Y` at the tristimulus value
(0.5, 0.3, 0.2) with neutral saturation. -/
theorem scaleSaturation_preserves_Y_witness :
    scaledChromaY ⟨1/2, 3/10, 1/5⟩ 1 ≠ 0 ∧
    (scaleSaturation ⟨1/2, 3/10, 1/5⟩ 1).Y = 3/10 := by
  have hne : scaledChromaY ⟨1/2, 3/10, 1/5⟩ 1 ≠ 0 := by
    norm_num [scaledChromaY, xyz_to_xyy, scaleCoord, satFactor, targetSat,
      white_y, wtpt_X, wtpt_Y, wtpt_Z]
  exact ⟨hne, scaleSaturation_preserves_Y ⟨1/2, 3/10, 1/5⟩ 1 hne⟩

/- ## ToneCurveSynthesizer: the 256-entry gamma LUT (source lines 334-342) -/

/-- Source line 334: `exponent = 2.2 / float(gamma)`. -/
noncomputable def gammaExponent (gamma : ℚ) : ℝ := (2.2 : ℝ) / (gamma : ℝ)

/-- Entry `i` of the LUT (source lines 337-342):
`norm_x = i/255`, `norm_y = norm_x ** exponent`,
`val = int(norm_y * 65535.0 + 0.5)` clamped to `[0, 65535]`.
The truncation `int(...)` is `Int.floor` here since the operand is
nonnegative for every `i`. -/
noncomputable def lutEntry (gamma : ℚ) (i : ℕ) : ℤ :=
  max 0 (min 65535 ⌊((i : ℝ) / 255) ^ gammaExponent gamma * 65535 + 1/2⌋)

/-- The full 256-entry LUT appended to the new curve tag. -/
noncomputable def buildGammaLut (gamma : ℚ) : List ℤ :=
  (List.range 256).map (lutEntry gamma)

lemma gammaExponent_pos {gamma : ℚ} (hg : 0 < gamma) : 0 < gammaExponent gamma := by
  have hgr : (0:ℝ) < (gamma : ℝ) := by exact_mod_cast hg
  rw [gammaExponent]
  positivity

lemma lutEntry_mono (gamma : ℚ) (hg : 0 < gamma) {i j : ℕ} (hij : i ≤ j) :
    lutEntry gamma i ≤ lutEntry gamma j := by
  have he := (gammaExponent_pos hg).le
  have hx : (0:ℝ) ≤ (i:ℝ)/255 := by positivity
  have hxy : (i:ℝ)/255 ≤ (j:ℝ)/255 := by
    have hr : (i:ℝ) ≤ (j:ℝ) := by exact_mod_cast hij
    linarith
  have hpow := Real.rpow_le_rpow hx hxy he
  rw [lutEntry, lutEntry]
  refine max_le_max le_rfl (min_le_min le_rfl (Int.floor_mono ?_))
  nlinarith [hpow]

lemma lutEntry_first (gamma : ℚ) (hg : 0 < gamma) : lutEntry gamma 0 = 0 := by
  have he : gammaExponent gamma ≠ 0 := (gammaExponent_pos hg).ne'
  rw [lutEntry]
  rw [show ((0:ℕ):ℝ)/255 = 0 by norm_num, Real.zero_rpow he]
  rw [show (0:ℝ) * 65535 + 1/2 = 1/2 by ring]
  rw [show ⌊(1/2 : ℝ)⌋ = 0 by rw [Int.floor_eq_iff] <;> norm_num]
  norm_num

lemma lutEntry_last (gamma : ℚ) : lutEntry gamma 255 = 65535 := by
  rw [lutEntry]
  rw [show ((255:ℕ):ℝ)/255 = 1 by norm_num, Real.one_rpow]
  rw [show (1:ℝ) * 65535 + 1/2 = 65535 + 1/2 by ring]
  rw [show ⌊(65535 + 1/2 : ℝ)⌋ = 65535 by rw [Int.floor_eq_iff] <;> norm_num]
  norm_num

/-- C5: for every `userGamma` in (0.1, 3.0], the 256-entry LUT is
monotonically non-decreasing, its first entry is 0 and its last entry
is 65535. -/
theorem buildGammaLut_spec (gamma : ℚ) (h1 : 1/10 < gamma) (h3 : gamma ≤ 3) :
    List.Sorted (· ≤ ·) (buildGammaLut gamma) ∧
    (buildGammaLut gamma).head? = some 0 ∧
    (buildGammaLut gamma).getLast? = some 65535 := by
  have hg : 0 < gamma := lt_trans (by norm_num) h1
  refine ⟨?_, ?_, ?_⟩
  · rw [buildGammaLut]
    exact (List.pairwise_lt_range 256).map (lutEntry gamma)
      (fun a b hab => lutEntry_mono gamma hg hab.le)
  · rw [buildGammaLut, List.head?_map, show (256:ℕ) = 255+1 from rfl,
      List.range_succ_eq_map]
    simp [lutEntry_first gamma hg]
  · rw [buildGammaLut, show (256:ℕ) = 255+1 from rfl, List.range_succ,
      List.map_append]
    simp [List.getLast?_concat, lutEntry_last gamma]

/-- Witness for `buildGammaLut_spec` at the neutral `userGamma = 1`. -/
theorem buildGammaLut_spec_witness :
    (1/10 : ℚ) < 1 ∧ (1 : ℚ) ≤ 3 ∧
    (List.Sorted (· ≤ ·) (buildGammaLut 1) ∧
      (buildGammaLut 1).head? = some 0 ∧
      (buildGammaLut 1).getLast? = some 65535) :=
  ⟨by norm_num, by norm_num, buildGammaLut_spec 1 (by norm_num) (by norm_num)⟩

/- ## ProfileDocumentEditor: the parsed profile document (source lines 254-393)

The iccXML tree is modelled by the parts `apply_profile_wayland` touches:
the three optional primary `XYZType` tags, the list of `curveType` children
of the `Tags` node, the optional `Header`/`ProfileDeviceClass` text
(`Option (Option String)`: no header, header without class, class present),
and the optional description tag, whose rewritten text
`Sat{target_sat}_Gam{gamma}_{timestamp}` is kept as structured data. -/

/-- A `curveType` tag: its `TagSignature` children and its sampled curve. -/
structure CurveTag where
  sigs : List String
  curve : List ℤ

/-- The profile document. -/
structure ProfileDoc where
  rXYZ : Option XYZNumber
  gXYZ : Option XYZNumber
  bXYZ : Option XYZNumber
  curves : List CurveTag
  header : Option (Option String)
  desc : Option (ℚ × ℚ × ℕ)

/-- The removal test of source line 317: the tag carries one of the three
channel signatures. -/
def hasTRCsig (c : CurveTag) : Bool :=
  c.sigs.contains "rTRC" || c.sigs.contains "gTRC" || c.sigs.contains "bTRC"

/-- The new shared curve tag inserted on source lines 326-346, signed for all
three channels and carrying the gamma LUT. -/
noncomputable def newCurveTag (gamma : ℚ) : CurveTag :=
  ⟨["rTRC", "gTRC", "bTRC"], buildGammaLut gamma⟩

/-- Source lines 315-346: remove every `curveType` child carrying one of the
three channel signatures, then append the single new shared curve tag. -/
noncomputable def replaceToneCurve (doc : ProfileDoc) (gamma : ℚ) : ProfileDoc :=
  { doc with curves := (doc.curves.filter fun c => !hasTRCsig c) ++ [newCurveTag gamma] }

/-- Models the `"%.6f"` formatting of source lines 302-304 in exact
arithmetic (round half up to 6 decimal places). -/
def round6 (q : ℚ) : ℚ := ((⌊q * 1000000 + 1/2⌋ : ℤ) : ℚ) / 1000000

/-- All three attributes of a primary formatted back with 6 decimals. -/
def roundXYZ (p : XYZNumber) : XYZNumber := ⟨round6 p.X, round6 p.Y, round6 p.Z⟩

/-- Source lines 289-304: the primaries are rescaled only when all three of
`rXYZ`, `gXYZ`, `bXYZ` are present in the tags map; otherwise the whole
block is skipped silently.  No white-point tag is consulted (the white
point is the hard-coded constant). -/
def updatePrimaries (doc : ProfileDoc) (saturation : ℚ) : ProfileDoc :=
  match doc.rXYZ, doc.gXYZ, doc.bXYZ with
  | some r, some g, some b =>
    { doc with
      rXYZ := some (roundXYZ (scaleSaturation r saturation))
      gXYZ := some (roundXYZ (scaleSaturation g saturation))
      bXYZ := some (roundXYZ (scaleSaturation b saturation)) }
  | _, _, _ => doc

/-- Source lines 350-355: overwrite the device class with `"mntr"` only when
both the `Header` element and its `ProfileDeviceClass` child exist;
otherwise do nothing. -/
def setDeviceClass (doc : ProfileDoc) : ProfileDoc :=
  match doc.header with
  | some (some _) => { doc with header := some (some "mntr") }
  | _ => doc

/-- Source lines 357-372: when a description tag exists, overwrite it with
the string encoding `target_sat`, `gamma` and the timestamp token. -/
def setDescription (doc : ProfileDoc) (saturation gamma : ℚ) (timestamp : ℕ) :
    ProfileDoc :=
  { doc with desc := doc.desc.map (fun _ => (targetSat saturation, gamma, timestamp)) }

/-- Result of one `apply_profile_wayland` call: the edited document, whether
a generated `.icc` file was written, and the returned success flag.
External collaborators (converter, applier, colord) are modelled as
succeeding, as the claims under scrutiny only vary the document. -/
structure ApplyResult where
  doc : ProfileDoc
  written : Bool
  success : Bool

/-- The document-editing pipeline of `apply_profile_wayland`
(source lines 220-419): primaries, tone curve, device class, description,
then conversion/application (always reaching `return True, "Success"`). -/
noncomputable def apply_profile_wayland (doc : ProfileDoc)
    (saturation gamma : ℚ) (timestamp : ℕ) : ApplyResult :=
  { doc := setDescription
      (setDeviceClass (replaceToneCurve (updatePrimaries doc saturation) gamma))
      saturation gamma timestamp
    written := true
    success := true }

/- ## Theorems about the document editing -/

lemma filter_trc_of_filter_not (l : List CurveTag) :
    (l.filter fun c => !hasTRCsig c).filter (fun c => hasTRCsig c) = [] := by
  induction l with
  | nil => rfl
  | cons c rest ih =>
    by_cases h : hasTRCsig c <;> simp [List.filter_cons, h, ih]

/-- C3: after the tone-curve replacement, the curve tags carrying any of the
three channel signatures are exactly the one newly inserted tag, which is
signed for all three channels; no pre-existing such tag survives. -/
theorem replaceToneCurve_unique (doc : ProfileDoc) (gamma : ℚ) :
    ((replaceToneCurve doc gamma).curves.filter fun c => hasTRCsig c) =
      [newCurveTag gamma] ∧
    (newCurveTag gamma).sigs = ["rTRC", "gTRC", "bTRC"] := by
  constructor
  · show ((doc.curves.filter fun c => !hasTRCsig c) ++ [newCurveTag gamma]).filter
        (fun c => hasTRCsig c) = _
    rw [List.filter_append, filter_trc_of_filter_not]
    have hnew : hasTRCsig (newCurveTag gamma) = true := by
      simp [hasTRCsig, newCurveTag]
    simp [List.filter_cons, hnew]
  · rfl

/-- A concrete template missing its red primary tag. -/
def missingPrimaryDoc : ProfileDoc :=
  { rXYZ := none
    gXYZ := some ⟨3851/10000, 7169/10000, 971/10000⟩
    bXYZ := some ⟨1431/10000, 606/10000, 7139/10000⟩
    curves := [⟨["rTRC", "gTRC", "bTRC"], [0, 65535]⟩]
    header := some (some "spac")
    desc := some (1, 1, 0) }

/-- C1 counterexample: on a template whose `rXYZ` tag is missing,
`apply_profile_wayland` still reports success and still writes a generated
file — it raises no `MissingTagError` (no such error exists in the code). -/
theorem apply_missing_primary_counterexample :
    (apply_profile_wayland missingPrimaryDoc 1 1 0).success = true ∧
    (apply_profile_wayland missingPrimaryDoc 1 1 0).written = true :=
  ⟨rfl, rfl⟩

lemma replaceToneCurve_primaries (doc : ProfileDoc) (gamma : ℚ) :
    (replaceToneCurve doc gamma).rXYZ = doc.rXYZ ∧
    (replaceToneCurve doc gamma).gXYZ = doc.gXYZ ∧
    (replaceToneCurve doc gamma).bXYZ = doc.bXYZ :=
  ⟨rfl, rfl, rfl⟩

lemma setDeviceClass_primaries (doc : ProfileDoc) :
    (setDeviceClass doc).rXYZ = doc.rXYZ ∧
    (setDeviceClass doc).gXYZ = doc.gXYZ ∧
    (setDeviceClass doc).bXYZ = doc.bXYZ := by
  rw [setDeviceClass]
  split <;> exact ⟨rfl, rfl, rfl⟩

lemma updatePrimaries_of_missing (doc : ProfileDoc) (saturation : ℚ)
    (h : doc.rXYZ = none ∨ doc.gXYZ = none ∨ doc.bXYZ = none) :
    updatePrimaries doc saturation = doc := by
  rw [updatePrimaries]
  rcases hr : doc.rXYZ with _ | r <;> rcases hg : doc.gXYZ with _ | g <;>
    rcases hb : doc.bXYZ with _ | b <;> simp_all

/-- C1 (amended): when the template lacks any of the three primary tags, the
apply operation does NOT fail: the primaries block is skipped silently (no
primary tag is mutated), the remaining steps still run, a generated file is
still written, and the call returns success.  The white point is a
hard-coded constant, so a missing white-point tag changes nothing. -/
theorem apply_missing_primary_behavior (doc : ProfileDoc)
    (saturation gamma : ℚ) (ts : ℕ)
    (h : doc.rXYZ = none ∨ doc.gXYZ = none ∨ doc.bXYZ = none) :
    (apply_profile_wayland doc saturation gamma ts).success = true ∧
    (apply_profile_wayland doc saturation gamma ts).written = true ∧
    (apply_profile_wayland doc saturation gamma ts).doc.rXYZ = doc.rXYZ ∧
    (apply_profile_wayland doc saturation gamma ts).doc.gXYZ = doc.gXYZ ∧
    (apply_profile_wayland doc saturation gamma ts).doc.bXYZ = doc.bXYZ := by
  have hup := updatePrimaries_of_missing doc saturation h
  have hr := replaceToneCurve_primaries (updatePrimaries doc saturation) gamma
  have hd := setDeviceClass_primaries
    (replaceToneCurve (updatePrimaries doc saturation) gamma)
  have e1 : (apply_profile_wayland doc saturation gamma ts).doc.rXYZ =
      (setDeviceClass (replaceToneCurve (updatePrimaries doc saturation) gamma)).rXYZ :=
    rfl
  have e2 : (apply_profile_wayland doc saturation gamma ts).doc.gXYZ =
      (setDeviceClass (replaceToneCurve (updatePrimaries doc saturation) gamma)).gXYZ :=
    rfl
  have e3 : (apply_profile_wayland doc saturation gamma ts).doc.bXYZ =
      (setDeviceClass (replaceToneCurve (updatePrimaries doc saturation) gamma)).bXYZ :=
    rfl
  refine ⟨rfl, rfl, ?_, ?_, ?_⟩
  · rw [e1, hd.1, hr.1, hup]
  · rw [e2, hd.2.1, hr.2.1, hup]
  · rw [e3, hd.2.2, hr.2.2, hup]

/-- Witness for `apply_missing_primary_behavior` on the concrete template
missing its red primary. -/
theorem apply_missing_primary_behavior_witness :
    (missingPrimaryDoc.rXYZ = none ∨ missingPrimaryDoc.gXYZ = none ∨
      missingPrimaryDoc.bXYZ = none) ∧
    ((apply_profile_wayland missingPrimaryDoc 1 1 0).success = true ∧
      (apply_profile_wayland missingPrimaryDoc 1 1 0).written = true ∧
      (apply_profile_wayland missingPrimaryDoc 1 1 0).doc.rXYZ =
        missingPrimaryDoc.rXYZ ∧
      (apply_profile_wayland missingPrimaryDoc 1 1 0).doc.gXYZ =
        missingPrimaryDoc.gXYZ ∧
      (apply_profile_wayland missingPrimaryDoc 1 1 0).doc.bXYZ =
        missingPrimaryDoc.bXYZ) :=
  ⟨Or.inl rfl, apply_missing_primary_behavior missingPrimaryDoc 1 1 0 (Or.inl rfl)⟩

/-- A complete document that simply has no `Header` element. -/
def headerlessDoc : ProfileDoc :=
  { rXYZ := some ⟨4360/10000, 2225/10000, 139/10000⟩
    gXYZ := some ⟨3851/10000, 7169/10000, 971/10000⟩
    bXYZ := some ⟨1431/10000, 606/10000, 7139/10000⟩
    curves := []
    header := none
    desc := none }

/-- C10: when the document has no `Header` element, or a `Header` without a
`ProfileDeviceClass` child, the device-class step leaves the document
unchanged, raises nothing, and the apply still returns success. -/
theorem setDeviceClass_missing_noop (doc : ProfileDoc)
    (saturation gamma : ℚ) (ts : ℕ)
    (h : doc.header = none ∨ doc.header = some none) :
    setDeviceClass doc = doc ∧
    (apply_profile_wayland doc saturation gamma ts).success = true := by
  constructor
  · rw [setDeviceClass]
    rcases h with h | h <;> rw [h]
  · rfl

/-- Witness for `setDeviceClass_missing_noop` on the header-less document. -/
theorem setDeviceClass_missing_noop_witness :
    (headerlessDoc.header = none ∨ headerlessDoc.header = some none) ∧
    (setDeviceClass headerlessDoc = headerlessDoc ∧
      (apply_profile_wayland headerlessDoc 1 1 0).success = true) :=
  ⟨Or.inl rfl, setDeviceClass_missing_noop headerlessDoc 1 1 0 (Or.inl rfl)⟩

/- ## ProfileLifecycleManager: prune of generated profiles (source lines 402-417)

A directory entry is a filename (as a character list, since the pattern test
is a prefix/suffix check) with its modification time.  Deletion failures
(`except OSError: pass`) are modelled by an oracle `fails`: a file whose
deletion fails stays on disk but is still popped from the working list, and
the loop continues — nothing propagates to the caller. -/

/-- A file in the generated-profiles directory. -/
structure GenFile where
  name : List Char
  mtime : ℕ
deriving DecidableEq

/-- Operation `startswith` on character lists (kernel-computable). -/
def startsWithChars : List Char → List Char → Bool
  | _, [] => true
  | [], _ :: _ => false
  | c :: s, p :: ps => c == p && startsWithChars s ps

/-- Operation `endswith` on character lists. -/
def endsWithChars (s p : List Char) : Bool :=
  startsWithChars s.reverse p.reverse

/-- The listing filter of source lines 404-405:
`f.startswith("custom_profile_") and f.endswith(".icc")`. -/
def matchesProfilePattern (f : GenFile) : Bool :=
  startsWithChars f.name "custom_profile_".toList &&
    endsWithChars f.name ".icc".toList

/-- Ordering by modification time, `files.sort(key=os.path.getmtime)`. -/
def mtimeLe (a b : GenFile) : Prop := a.mtime ≤ b.mtime

instance : DecidableRel mtimeLe := fun a b => Nat.decLe a.mtime b.mtime

instance : IsTotal GenFile mtimeLe := ⟨fun a b => Nat.le_total a.mtime b.mtime⟩

instance : IsTrans GenFile mtimeLe := ⟨fun _ _ _ h1 h2 => Nat.le_trans h1 h2⟩

/-- The candidate list of source lines 404-406: pattern-matching files,
sorted by modification time ascending. -/
def sortedCandidates (dir : List GenFile) : List GenFile :=
  List.insertionSort mtimeLe (dir.filter matchesProfilePattern)

/-- The loop of source lines 409-415 (`while len(files) > 2`), returning the
files still on disk: each popped oldest file is removed unless its deletion
fails, in which case it merely stays on disk. -/
def pruneSurvivors (fails : GenFile → Bool) : List GenFile → List GenFile
  | [] => []
  | f :: rest =>
    if 2 < rest.length + 1 then
      (if fails f then [f] else []) ++ pruneSurvivors fails rest
    else f :: rest

/-- Function `prune`: generated files surviving one cleanup pass over the directory. -/
def prune (fails : GenFile → Bool) (dir : List GenFile) : List GenFile :=
  pruneSurvivors fails (sortedCandidates dir)

/- ## Theorems about prune -/

lemma pruneSurvivors_nofail :
    ∀ fs : List GenFile,
      pruneSurvivors (fun _ => false) fs = fs.drop (fs.length - 2) := by
  intro fs
  induction fs with
  | nil => rfl
  | cons f rest ih =>
    by_cases h : 2 < rest.length + 1
    · rw [pruneSurvivors, if_pos h]
      rw [show (f :: rest).length - 2 = (rest.length - 2) + 1 by
        simp only [List.length_cons]
        omega]
      rw [List.drop_succ_cons]
      simpa using ih
    · rw [pruneSurvivors, if_neg h]
      rw [show (f :: rest).length - 2 = 0 by
        simp only [List.length_cons]
        omega]
      rfl

lemma pruneSurvivors_short (fails : GenFile → Bool) :
    ∀ fs : List GenFile, fs.length ≤ 2 → pruneSurvivors fails fs = fs := by
  intro fs h
  cases fs with
  | nil => rfl
  | cons f rest =>
    rw [pruneSurvivors, if_neg]
    simp only [List.length_cons] at h
    omega

lemma pruneSurvivors_failed (fails : GenFile → Bool) :
    ∀ fs : List GenFile, ∀ f ∈ fs, fails f = true →
      f ∈ pruneSurvivors fails fs := by
  intro fs
  induction fs with
  | nil => intro f hf; exact absurd hf (List.not_mem_nil f)
  | cons g rest ih =>
    intro f hf hfail
    by_cases h : 2 < rest.length + 1
    · rw [pruneSurvivors, if_pos h]
      rcases List.mem_cons.mp hf with rfl | hf2
      · rw [hfail]
        exact List.mem_append_left _ (List.mem_singleton_self f)
      · exact List.mem_append_right _ (ih f hf2 hfail)
    · rw [pruneSurvivors, if_neg h]
      exact hf

/-- C9: one cleanup pass over any directory state: the candidates (files
matching the generated-profile pattern) are processed in ascending
modification-time order; with no deletion failures exactly the
`length - 2` oldest are deleted, so only the 2 most recently modified
survive (with 5 generated files, the 2 newest); with at most 2 candidates
(1 existing file in particular) nothing is touched even if deletions would
fail; and any file whose deletion fails merely survives — the pass always
completes and never raises. -/
theorem prune_spec (fails : GenFile → Bool) (dir : List GenFile) :
    List.Sorted mtimeLe (sortedCandidates dir) ∧
    prune (fun _ => false) dir =
      (sortedCandidates dir).drop ((sortedCandidates dir).length - 2) ∧
    ((sortedCandidates dir).length ≤ 2 → prune fails dir = sortedCandidates dir) ∧
    (∀ f ∈ sortedCandidates dir, fails f = true → f ∈ prune fails dir) :=
  ⟨List.sorted_insertionSort mtimeLe _,
    pruneSurvivors_nofail _,
    pruneSurvivors_short fails _,
    pruneSurvivors_failed fails _⟩

/-- A directory with five generated profiles (listed unsorted) and one
unrelated file. -/
def demoDir : List GenFile :=
  [⟨"custom_profile_1737000000003.icc".toList, 3⟩,
   ⟨"custom_profile_1737000000001.icc".toList, 1⟩,
   ⟨"temp_profile.xml".toList, 9⟩,
   ⟨"custom_profile_1737000000005.icc".toList, 5⟩,
   ⟨"custom_profile_1737000000002.icc".toList, 2⟩,
   ⟨"custom_profile_1737000000004.icc".toList, 4⟩]

/-- Witness for `prune_spec`: on the five-profile directory with no deletion
failures, exactly the 2 most recently modified generated files survive. -/
theorem prune_spec_witness :
    prune (fun _ => false) demoDir =
      [⟨"custom_profile_1737000000004.icc".toList, 4⟩,
       ⟨"custom_profile_1737000000005.icc".toList, 5⟩] := by
  have h := (prune_spec (fun _ => false) demoDir).2.1
  rw [h]
  decide
